import Mathlib

/-!
Verification of the amortization engine of `src/app.py` (libramoneda).

Modelling decisions:
* Python `Decimal` values are modelled as exact rationals (`ℚ`).  The source
  sets a 28-significant-digit context; exact rational arithmetic agrees with
  it on every quantity the engine produces for realistic inputs, and the spec
  itself mandates "an exact/decimal numeric type with AT LEAST 28 significant
  digits".
* `Decimal.quantize(R)` with `ROUND_HALF_UP` (round half away from zero) and
  `R = Decimal("1")` is modelled by `quantize` below.
* `datetime.date` is modelled by a year/month/day structure over `ℕ` with the
  proleptic Gregorian calendar (`calendar.monthrange` becomes `daysInMonth`,
  subtraction of dates goes through an ordinal-day count).
* The FastAPI layer, Google Sheets / Drive code and the pydantic validation
  are out of scope; `simulate` takes the already-validated fields of
  `SimulateRequest` plus an explicit `today` standing for `date.today()`
  (used only when no `start_date` is supplied).
* The constant `notes` string of `SimulateResponse` is omitted from the
  response structure (it does not depend on the input).
-/

namespace Libramoneda

/-! ## Date arithmetic (embeds `month_end`, `next_month_end`,
`diff_days_exclusive` and `timedelta(days=1)` from app.py) -/

structure Date where
  year : ℕ
  month : ℕ
  day : ℕ
deriving DecidableEq, Inhabited

/-- Gregorian leap-year rule, as used by `calendar.monthrange`. -/
def isLeap (y : ℕ) : Bool :=
  y % 4 == 0 && (y % 100 != 0 || y % 400 == 0)

/-- Number of days of month `m` of year `y` (`calendar.monthrange(y, m)[1]`). -/
def daysInMonth (y m : ℕ) : ℕ :=
  if m = 2 then (if isLeap y then 29 else 28)
  else if m = 4 ∨ m = 6 ∨ m = 9 ∨ m = 11 then 30
  else 31

/-- `month_end` from app.py: last day of the date's own month. -/
def month_end (d : Date) : Date :=
  ⟨d.year, d.month, daysInMonth d.year d.month⟩

/-- `next_month_end` from app.py: last day of the following month. -/
def next_month_end (d : Date) : Date :=
  if d.month = 12 then ⟨d.year + 1, 1, daysInMonth (d.year + 1) 1⟩
  else ⟨d.year, d.month + 1, daysInMonth d.year (d.month + 1)⟩

/-- Days of year `y` before month `m`. -/
def daysBeforeMonth (y m : ℕ) : ℕ :=
  ((List.range (m - 1)).map (fun j => daysInMonth y (j + 1))).sum

/-- Proleptic Gregorian ordinal of a date (as `datetime.date.toordinal`). -/
def toOrdinal (d : Date) : ℕ :=
  365 * (d.year - 1) + (d.year - 1) / 4 - (d.year - 1) / 100 + (d.year - 1) / 400
    + daysBeforeMonth d.year d.month + d.day

/-- `diff_days_exclusive` from app.py: `(end - start).days`. -/
def diff_days_exclusive (start stop : Date) : ℤ :=
  (toOrdinal stop : ℤ) - (toOrdinal start : ℤ)

/-- `d + timedelta(days=1)` on a valid date. -/
def nextDay (d : Date) : Date :=
  if d.day < daysInMonth d.year d.month then ⟨d.year, d.month, d.day + 1⟩
  else if d.month = 12 then ⟨d.year + 1, 1, 1⟩
  else ⟨d.year, d.month + 1, 1⟩

/-! ## Financial rounding (embeds `.quantize(R)` with the module-wide
`ROUND_HALF_UP` context and `R = Decimal("1")`) -/

/-- Round half away from zero to the nearest integer (`ROUND_HALF_UP`). -/
def qround (x : ℚ) : ℤ :=
  if 0 ≤ x then ⌊x + 1/2⌋ else -⌊-x + 1/2⌋

/-- `x.quantize(R)` with `R = Decimal("1")`: round to a whole currency unit. -/
def quantize (x : ℚ) : ℚ := (qround x : ℚ)

/-- `x.quantize(Decimal("0.0001"))`: round to four decimal places
(used only for the displayed `tasa_interes`). -/
def quantize4 (x : ℚ) : ℚ := (qround (x * 10000) : ℚ) / 10000

/-! ## Product configuration (`PRODUCT_CONFIG` in app.py) -/

def base_rate_monthly : ℚ := 183 / 10000

def rate_aval_payroll : ℚ := 705 / 10000

def rate_aval_individualorcompany : ℚ := 405 / 10000

def iva_rate : ℚ := 19 / 100

/-! ## Payment formula (`pmt` in app.py) -/

/-- `pmt(principal, i, n)`: level payment of the French amortization system. -/
def pmt (principal i : ℚ) (n : ℕ) : ℚ :=
  if i = 0 then quantize (principal / (n : ℚ))
  else quantize (principal * i / (1 - (1 + i) ^ (-(n : ℤ))))

/-! ## Rate selection (`seleccionar_tasa_aval` in app.py) -/

/-- Python `str.lower()` (ASCII case folding; the product tags compared by
the engine are plain ASCII). -/
def pyLower (s : String) : String := ⟨s.data.map Char.toLower⟩

/-- Python `str.strip()`: drop leading and trailing whitespace. -/
def pyStrip (s : String) : String :=
  ⟨((s.data.dropWhile Char.isWhitespace).reverse.dropWhile Char.isWhitespace).reverse⟩

/-- `seleccionar_tasa_aval`: `(tipo_credito or "").strip().lower() == "libranza"`
selects the payroll tier unconditionally; otherwise the amount tier decides. -/
def seleccionar_tasa_aval (monto : ℚ) (tipo_credito tipo_persona : Option String) : ℚ :=
  if pyLower (pyStrip (tipo_credito.getD "")) = "libranza" then rate_aval_payroll
  else if monto > 5000000 then rate_aval_individualorcompany
  else rate_aval_payroll

/-! ## Monthly quote (`calcular_cuota_mensual` in app.py) -/

def calcular_cuota_mensual (monto : ℚ) (plazo : ℕ)
    (tipo_credito tipo_persona : Option String) : ℚ :=
  let i0 := base_rate_monthly
  let i1 := seleccionar_tasa_aval monto tipo_credito tipo_persona
  let iva := iva_rate
  let pay_base := pmt monto i0 plazo
  let pay_with_aval := pmt monto i1 plazo
  let aval_monthly := quantize (pay_with_aval - pay_base)
  let iva_aval := quantize (aval_monthly * iva)
  quantize (pay_base + aval_monthly + iva_aval)

/-! ## Schedule data model (`ScheduleRow` / `SimulateResponse` in app.py) -/

structure ScheduleRow where
  cuota_no : ℕ
  fecha_inicial : Date
  fin_mes_primera_cuota : Option Date
  fecha_final : Date
  mes_anio : String
  tasa_usura : ℚ
  tasa_interes : ℚ
  dias : ℤ
  saldo_inicial : ℚ
  valor_cuota_mensual : ℚ
  abono_capital : ℚ
  aval : ℚ
  iva_aval : ℚ
  interes_primera_cuota : ℚ
  intereses : ℚ
  saldo_final : ℚ
deriving DecidableEq, Inhabited

structure SimulateResponse where
  amount : ℚ
  periods : ℕ
  payment_monthly : ℚ
  schedule : List ScheduleRow
deriving DecidableEq, Inhabited

/-! ## Schedule builder (`simulate` in app.py)

The imperative loop is expressed as a recursion over the remaining
iteration count; each intermediate quantity of the source keeps its name. -/

def pay_base (P : ℚ) (n : ℕ) : ℚ := pmt P base_rate_monthly n

def pay_with_aval (P : ℚ) (n : ℕ) (tc tp : Option String) : ℚ :=
  pmt P (seleccionar_tasa_aval P tc tp) n

def aval_monthly (P : ℚ) (n : ℕ) (tc tp : Option String) : ℚ :=
  quantize (pay_with_aval P n tc tp - pay_base P n)

def iva_aval (P : ℚ) (n : ℕ) (tc tp : Option String) : ℚ :=
  quantize (aval_monthly P n tc tp * iva_rate)

def payment_monthly (P : ℚ) (n : ℕ) (tc tp : Option String) : ℚ :=
  quantize (pay_base P n + aval_monthly P n tc tp + iva_aval P n tc tp)

/-- `interes_primera`: stub interest of row 1, prorated over
`dias_0 = diff_days_exclusive(start, month_end(start))` with a 30-day basis. -/
def interes_primera (P : ℚ) (start : Date) : ℚ :=
  quantize (P * base_rate_monthly * ((diff_days_exclusive start (month_end start)) : ℚ) / 30)

/-- `interes_30`: a full 30-day month of interest on the opening balance. -/
def interes_30 (P : ℚ) : ℚ :=
  quantize (P * base_rate_monthly * 30 / 30)

/-- `interes_tramo_restante`: the shortfall between a full month of interest
and the stub interest. -/
def interes_tramo_restante (P : ℚ) (start : Date) : ℚ :=
  quantize (interes_30 P - interes_primera P start)

/-- Row 1 principal portion before clamping:
`(payment_first_month - aval_monthly - iva_aval - interes_primera).quantize(R)`
with `payment_first_month = payment_monthly - interes_tramo_restante`. -/
def abono_raw_1 (P : ℚ) (n : ℕ) (tc tp : Option String) (start : Date) : ℚ :=
  quantize (payment_monthly P n tc tp - interes_tramo_restante P start
      - aval_monthly P n tc tp - iva_aval P n tc tp - interes_primera P start)

/-- The `if abono_cap_1 < 0: abono_cap_1 = 0` guard. -/
def abono_floored_1 (P : ℚ) (n : ℕ) (tc tp : Option String) (start : Date) : ℚ :=
  if abono_raw_1 P n tc tp start < 0 then 0 else abono_raw_1 P n tc tp start

/-- `abono_cap_1`: principal portion of row 1, clamped to `[0, saldo]`
(`saldo = P` at that point). -/
def abono_cap_1 (P : ℚ) (n : ℕ) (tc tp : Option String) (start : Date) : ℚ :=
  if abono_floored_1 P n tc tp start > P then P else abono_floored_1 P n tc tp start

/-- Balance after row 1: `saldo = (saldo - abono_cap_1).quantize(R)`. -/
def saldo_1 (P : ℚ) (n : ℕ) (tc tp : Option String) (start : Date) : ℚ :=
  quantize (P - abono_cap_1 P n tc tp start)

/-- `valor_cuota_1`: amount actually charged in row 1. -/
def valor_cuota_1 (P : ℚ) (n : ℕ) (tc tp : Option String) (start : Date) : ℚ :=
  quantize (abono_cap_1 P n tc tp start + aval_monthly P n tc tp
      + iva_aval P n tc tp + interes_primera P start)

/-- Row 1 of the schedule (the stub period). -/
def row_1 (P : ℚ) (n : ℕ) (tc tp : Option String) (start : Date) : ScheduleRow :=
  { cuota_no := 1
    fecha_inicial := start
    fin_mes_primera_cuota := some (month_end start)
    fecha_final := next_month_end start
    mes_anio := toString (next_month_end start).month ++ "-" ++ toString (next_month_end start).year
    tasa_usura := 2501 / 10000
    tasa_interes := quantize4 base_rate_monthly
    dias := diff_days_exclusive start (next_month_end start)
    saldo_inicial := P
    valor_cuota_mensual := valor_cuota_1 P n tc tp start
    abono_capital := abono_cap_1 P n tc tp start
    aval := aval_monthly P n tc tp
    iva_aval := iva_aval P n tc tp
    interes_primera_cuota := interes_primera P start
    intereses := 0
    saldo_final := saldo_1 P n tc tp start }

/-- `interes_k`: interest of a regular row, on the running balance, for the
row's own day count over a 30-day basis. -/
def interesK (i0 : ℚ) (prev_final : Date) (saldo : ℚ) : ℚ :=
  quantize (saldo * i0 *
    ((diff_days_exclusive (nextDay prev_final) (month_end (nextDay prev_final))) : ℚ) / 30)

/-- `abono_cap_k`: principal portion of a regular row — the formula result
floored at `0`, overridden to the whole remaining balance when `k = n`. -/
def abonoK (pm aval iva i0 : ℚ) (n k : ℕ) (prev_final : Date) (saldo : ℚ) : ℚ :=
  if k = n then saldo
  else if quantize (pm - aval - iva - interesK i0 prev_final saldo) < 0 then 0
  else quantize (pm - aval - iva - interesK i0 prev_final saldo)

/-- The loop `for k in range(2, n + 1)` of `simulate`; the second `ℕ`
argument is the number of remaining iterations (`n + 1 - k`). -/
def loopRows (pm aval iva i0 : ℚ) (n : ℕ) : ℕ → ℕ → Date → ℚ → List ScheduleRow
  | _, 0, _, _ => []
  | k, m + 1, prev_final, saldo =>
    { cuota_no := k
      fecha_inicial := nextDay prev_final
      fin_mes_primera_cuota := none
      fecha_final := month_end (nextDay prev_final)
      mes_anio := toString (month_end (nextDay prev_final)).month ++ "-"
          ++ toString (month_end (nextDay prev_final)).year
      tasa_usura := 2501 / 10000
      tasa_interes := quantize4 i0
      dias := diff_days_exclusive (nextDay prev_final) (month_end (nextDay prev_final))
      saldo_inicial := saldo
      valor_cuota_mensual := quantize (abonoK pm aval iva i0 n k prev_final saldo
          + interesK i0 prev_final saldo + aval + iva)
      abono_capital := abonoK pm aval iva i0 n k prev_final saldo
      aval := aval
      iva_aval := iva
      interes_primera_cuota := 0
      intereses := interesK i0 prev_final saldo
      saldo_final := quantize (saldo - abonoK pm aval iva i0 n k prev_final saldo) }
    :: loopRows pm aval iva i0 n (k + 1) m (month_end (nextDay prev_final))
        (quantize (saldo - abonoK pm aval iva i0 n k prev_final saldo))

/-- `simulate` from app.py: the full schedule computation.  `today` stands
for `date.today()` and is consulted only when `start_date` is `none`. -/
def simulate (amount : ℚ) (periods : ℕ) (start_date : Option Date)
    (tipo_credito tipo_persona : Option String) (today : Date) : SimulateResponse :=
  let P := quantize amount
  let start := start_date.getD today
  { amount := P
    periods := periods
    payment_monthly := payment_monthly P periods tipo_credito tipo_persona
    schedule := row_1 P periods tipo_credito tipo_persona start ::
      loopRows (payment_monthly P periods tipo_credito tipo_persona)
        (aval_monthly P periods tipo_credito tipo_persona)
        (iva_aval P periods tipo_credito tipo_persona)
        base_rate_monthly periods 2 (periods - 1) (next_month_end start)
        (saldo_1 P periods tipo_credito tipo_persona start) }

/-! ## Helpers for stating the schedule invariants -/

/-- Sum of the principal portions of a list of rows. -/
def sumAbono (rows : List ScheduleRow) : ℚ :=
  (rows.map ScheduleRow.abono_capital).sum

/-- `chained p rows` holds when the first row opens at `p` and every row
opens at the previous row's closing balance. -/
def chained (p : ℚ) : List ScheduleRow → Bool
  | [] => true
  | r :: rs => decide (r.saldo_inicial = p) && chained r.saldo_final rs

/-- Closing balance of the last row, when there is one. -/
def lastSaldoFinal : List ScheduleRow → Option ℚ
  | [] => none
  | [r] => some r.saldo_final
  | _ :: r :: rs => lastSaldoFinal (r :: rs)

/-- The row at index `i` (0-based) of a schedule. -/
def rowAt (rows : List ScheduleRow) (i : ℕ) : ScheduleRow :=
  (rows[i]?).getD default

/-- Pointwise property of every row of a list. -/
def AllRows (p : ScheduleRow → Prop) : List ScheduleRow → Prop
  | [] => True
  | r :: rs => p r ∧ AllRows p rs

/-! ## Basic lemmas about the rounding discipline -/

/-- A rational that is a whole number of currency units. -/
def IsInt (x : ℚ) : Prop := ∃ z : ℤ, x = (z : ℚ)

lemma floor_half : ⌊(1 / 2 : ℚ)⌋ = 0 := by norm_num

lemma qround_intCast (z : ℤ) : qround (z : ℚ) = z := by
  unfold qround
  split
  · rw [add_comm, Int.floor_add_int, floor_half, zero_add]
  · have h : -(z : ℚ) + 1 / 2 = ((-z : ℤ) : ℚ) + 1 / 2 := by push_cast; ring
    rw [h, add_comm, Int.floor_add_int, floor_half, zero_add, neg_neg]

lemma quantize_intCast (z : ℤ) : quantize (z : ℚ) = (z : ℚ) := by
  unfold quantize; rw [qround_intCast]

lemma quantize_zero : quantize 0 = 0 := by
  have h := quantize_intCast 0
  simpa using h

lemma isInt_quantize (x : ℚ) : IsInt (quantize x) := ⟨qround x, rfl⟩

lemma IsInt.quantize_eq {x : ℚ} (h : IsInt x) : quantize x = x := by
  obtain ⟨z, rfl⟩ := h; exact quantize_intCast z

lemma isInt_zero : IsInt 0 := ⟨0, by norm_num⟩

lemma IsInt.add {x y : ℚ} (hx : IsInt x) (hy : IsInt y) : IsInt (x + y) := by
  obtain ⟨a, rfl⟩ := hx; obtain ⟨b, rfl⟩ := hy; exact ⟨a + b, by push_cast; ring⟩

lemma IsInt.sub {x y : ℚ} (hx : IsInt x) (hy : IsInt y) : IsInt (x - y) := by
  obtain ⟨a, rfl⟩ := hx; obtain ⟨b, rfl⟩ := hy; exact ⟨a - b, by push_cast; ring⟩

lemma IsInt.ite {x y : ℚ} (c : Prop) [Decidable c] (hx : IsInt x) (hy : IsInt y) :
    IsInt (if c then x else y) := by
  split
  · exact hx
  · exact hy

/-- Adding a nonnegative integer to a nonnegative rational commutes with
half-up rounding. -/
lemma qround_int_add {z : ℤ} {x : ℚ} (hz : 0 ≤ z) (hx : 0 ≤ x) :
    qround ((z : ℚ) + x) = z + qround x := by
  have hzx : (0 : ℚ) ≤ (z : ℚ) + x := by positivity
  unfold qround
  rw [if_pos hzx, if_pos hx, add_assoc, Int.floor_int_add]

lemma isInt_pmt (P i : ℚ) (n : ℕ) : IsInt (pmt P i n) := by
  unfold pmt; split
  · exact isInt_quantize _
  · exact isInt_quantize _

lemma isInt_pay_base (P : ℚ) (n : ℕ) : IsInt (pay_base P n) := isInt_pmt _ _ _

lemma isInt_aval_monthly (P : ℚ) (n : ℕ) (tc tp : Option String) :
    IsInt (aval_monthly P n tc tp) := isInt_quantize _

lemma isInt_iva_aval (P : ℚ) (n : ℕ) (tc tp : Option String) :
    IsInt (iva_aval P n tc tp) := isInt_quantize _

lemma isInt_abono_cap_1 (P : ℚ) (n : ℕ) (tc tp : Option String) (start : Date)
    (hP : IsInt P) : IsInt (abono_cap_1 P n tc tp start) := by
  unfold abono_cap_1 abono_floored_1
  exact IsInt.ite _ hP (IsInt.ite _ isInt_zero (isInt_quantize _))

lemma isInt_abonoK (pm aval iva i0 : ℚ) (n k : ℕ) (prev_final : Date) (saldo : ℚ)
    (hs : IsInt saldo) : IsInt (abonoK pm aval iva i0 n k prev_final saldo) := by
  unfold abonoK
  exact IsInt.ite _ hs (IsInt.ite _ isInt_zero (isInt_quantize _))

/-! ## The loop invariant of the schedule builder -/

lemma sumAbono_cons (r : ScheduleRow) (rows : List ScheduleRow) :
    sumAbono (r :: rows) = r.abono_capital + sumAbono rows := by
  simp [sumAbono]

lemma chained_cons (p : ℚ) (r : ScheduleRow) (rows : List ScheduleRow) :
    chained p (r :: rows) = (decide (r.saldo_inicial = p) && chained r.saldo_final rows) := rfl

lemma lastSaldoFinal_cons (r : ScheduleRow) {rows : List ScheduleRow} (h : rows ≠ []) :
    lastSaldoFinal (r :: rows) = lastSaldoFinal rows := by
  cases rows with
  | nil => exact absurd rfl h
  | cons r' rs => rfl

/-- Invariant of the loop `for k in range(2, n + 1)`: starting from an
integral balance with `k + m = n + 1` iterations to go, the produced rows
chain openings to closings, their principal portions sum to the incoming
balance, and the last row closes at exactly `0`. -/
lemma loopRows_consistent (pm aval iva i0 : ℚ) (n : ℕ) :
    ∀ (m k : ℕ) (prev : Date) (saldo : ℚ), k + m = n + 1 → 1 ≤ m → IsInt saldo →
      chained saldo (loopRows pm aval iva i0 n k m prev saldo) = true ∧
      sumAbono (loopRows pm aval iva i0 n k m prev saldo) = saldo ∧
      lastSaldoFinal (loopRows pm aval iva i0 n k m prev saldo) = some 0 := by
  intro m
  induction m with
  | zero => intro k prev saldo _ h1 _; exact absurd h1 (by omega)
  | succ m ih =>
    intro k prev saldo hkm _ hs
    rcases Nat.eq_zero_or_pos m with hm0 | hm1
    · subst hm0
      have hk : k = n := by omega
      have hab : abonoK pm aval iva i0 n k prev saldo = saldo := by
        unfold abonoK; rw [if_pos hk]
      have hsf : quantize (saldo - abonoK pm aval iva i0 n k prev saldo) = 0 := by
        rw [hab, sub_self, quantize_zero]
      refine ⟨?_, ?_, ?_⟩
      · simp [loopRows, chained, hsf]
      · simp [loopRows, sumAbono, hab]
      · simp [loopRows, lastSaldoFinal, hsf]
    · have hk : k ≠ n := by omega
      have habInt : IsInt (abonoK pm aval iva i0 n k prev saldo) :=
        isInt_abonoK pm aval iva i0 n k prev saldo hs
      have hs2 : quantize (saldo - abonoK pm aval iva i0 n k prev saldo)
          = saldo - abonoK pm aval iva i0 n k prev saldo :=
        (hs.sub habInt).quantize_eq
      obtain ⟨ihc, ihsum, ihlast⟩ := ih (k + 1) (month_end (nextDay prev))
        (quantize (saldo - abonoK pm aval iva i0 n k prev saldo))
        (by omega) hm1 (isInt_quantize _)
      refine ⟨?_, ?_, ?_⟩
      · simp only [loopRows, chained_cons]
        simp [ihc]
      · simp only [loopRows, sumAbono_cons]
        rw [ihsum, hs2]
        ring
      · have hne : loopRows pm aval iva i0 n (k + 1) m (month_end (nextDay prev))
            (quantize (saldo - abonoK pm aval iva i0 n k prev saldo)) ≠ [] := by
          intro h
          rw [h] at ihlast
          exact absurd ihlast (by simp [lastSaldoFinal])
        simp only [loopRows]
        rw [lastSaldoFinal_cons _ hne]
        exact ihlast

/-- Shape of every row produced by the loop: the recurrence formulas of
periods `2..n`, with the final-period override. -/
lemma loopRows_rows_spec (pm aval iva i0 : ℚ) (n : ℕ) :
    ∀ (m k : ℕ) (prev : Date) (saldo : ℚ),
      AllRows (fun r =>
        r.aval = aval ∧ r.iva_aval = iva ∧
        r.fecha_final = month_end r.fecha_inicial ∧
        r.dias = diff_days_exclusive r.fecha_inicial r.fecha_final ∧
        r.intereses = quantize (r.saldo_inicial * i0 * (r.dias : ℚ) / 30) ∧
        (r.cuota_no = n → r.abono_capital = r.saldo_inicial) ∧
        (r.cuota_no ≠ n → r.abono_capital =
          (if quantize (pm - aval - iva - r.intereses) < 0 then 0
           else quantize (pm - aval - iva - r.intereses))) ∧
        r.saldo_final = quantize (r.saldo_inicial - r.abono_capital) ∧
        r.valor_cuota_mensual = quantize (r.abono_capital + r.intereses + r.aval + r.iva_aval))
      (loopRows pm aval iva i0 n k m prev saldo) := by
  intro m
  induction m with
  | zero => intro k prev saldo; exact trivial
  | succ m ih =>
    intro k prev saldo
    refine ⟨⟨rfl, rfl, rfl, rfl, rfl, fun h => ?_, fun h => ?_, rfl, rfl⟩, ih (k + 1) _ _⟩
    · show abonoK pm aval iva i0 n k prev saldo = saldo
      unfold abonoK
      rw [if_pos h]
    · show abonoK pm aval iva i0 n k prev saldo = _
      unfold abonoK
      rw [if_neg h]

/-! ## Arithmetic facts for the one-period schedule -/

lemma base_rate_ne_zero : base_rate_monthly ≠ 0 := by norm_num [base_rate_monthly]

/-- `interes_30` is just a full month of interest: the `* 30 / 30` factor
of the source cancels exactly. -/
lemma interes_30_eq (P : ℚ) : interes_30 P = quantize (P * base_rate_monthly) := by
  unfold interes_30
  congr 1
  ring

/-- For a one-period loan the level payment is the principal plus one rounded
month of interest: `pmt(P, i, 1) = P + round(P * i)` for an integral `P ≥ 0`. -/
lemma pay_base_one (z : ℤ) (hz : 0 ≤ z) :
    pay_base (z : ℚ) 1 = (z : ℚ) + quantize ((z : ℚ) * base_rate_monthly) := by
  have harg : (z : ℚ) * base_rate_monthly / (1 - (1 + base_rate_monthly) ^ (-((1 : ℕ) : ℤ)))
      = (z : ℚ) + (z : ℚ) * base_rate_monthly := by
    rw [show (-((1 : ℕ) : ℤ)) = -1 by norm_num, zpow_neg, zpow_one]
    rw [div_eq_iff (by norm_num [base_rate_monthly])]
    norm_num [base_rate_monthly]
    ring
  unfold pay_base pmt
  rw [if_neg base_rate_ne_zero, harg]
  have hx : (0 : ℚ) ≤ (z : ℚ) * base_rate_monthly := by
    have h1 : (0 : ℚ) ≤ (z : ℚ) := by exact_mod_cast hz
    have h2 : (0 : ℚ) ≤ base_rate_monthly := by norm_num [base_rate_monthly]
    exact mul_nonneg h1 h2
  unfold quantize
  rw [qround_int_add hz hx]
  push_cast
  ring

/-- When the schedule has a single period, the stub adjustment makes the first
principal portion exactly the principal (so the balance zeroes out without the
loop's final-period override). -/
lemma abono_cap_1_eq_principal (P : ℚ) (tc tp : Option String) (start : Date)
    (hP : 0 < P) (hPi : IsInt P) : abono_cap_1 P 1 tc tp start = P := by
  obtain ⟨z, rfl⟩ := hPi
  have hz : 0 < z := by exact_mod_cast hP
  have hAI := isInt_aval_monthly (z : ℚ) 1 tc tp
  have hVI := isInt_iva_aval (z : ℚ) 1 tc tp
  have hPB := isInt_pay_base (z : ℚ) 1
  have h30 : IsInt (interes_30 (z : ℚ)) := isInt_quantize _
  have hSI : IsInt (interes_primera (z : ℚ) start) := isInt_quantize _
  have hpm : payment_monthly (z : ℚ) 1 tc tp
      = pay_base (z : ℚ) 1 + aval_monthly (z : ℚ) 1 tc tp + iva_aval (z : ℚ) 1 tc tp := by
    unfold payment_monthly
    exact ((hPB.add hAI).add hVI).quantize_eq
  have htr : interes_tramo_restante (z : ℚ) start
      = interes_30 (z : ℚ) - interes_primera (z : ℚ) start := by
    unfold interes_tramo_restante
    exact (h30.sub hSI).quantize_eq
  have hraw : abono_raw_1 (z : ℚ) 1 tc tp start = (z : ℚ) := by
    unfold abono_raw_1
    rw [hpm, htr, pay_base_one z hz.le, interes_30_eq]
    have harg : (z : ℚ) + quantize ((z : ℚ) * base_rate_monthly)
        + aval_monthly (z : ℚ) 1 tc tp + iva_aval (z : ℚ) 1 tc tp
        - (quantize ((z : ℚ) * base_rate_monthly) - interes_primera (z : ℚ) start)
        - aval_monthly (z : ℚ) 1 tc tp - iva_aval (z : ℚ) 1 tc tp
        - interes_primera (z : ℚ) start = (z : ℚ) := by ring
    rw [harg, quantize_intCast]
  have hfl : abono_floored_1 (z : ℚ) 1 tc tp start = (z : ℚ) := by
    unfold abono_floored_1
    rw [hraw, if_neg (not_lt.mpr hP.le)]
  unfold abono_cap_1
  rw [hfl, if_neg (lt_irrefl _)]

/-- The schedule of `simulate`, spelled out. -/
lemma simulate_schedule_eq (amount : ℚ) (n : ℕ) (sd : Option Date)
    (tc tp : Option String) (today : Date) :
    (simulate amount n sd tc tp today).schedule
      = row_1 (quantize amount) n tc tp (sd.getD today) ::
        loopRows (payment_monthly (quantize amount) n tc tp)
          (aval_monthly (quantize amount) n tc tp)
          (iva_aval (quantize amount) n tc tp)
          base_rate_monthly n 2 (n - 1) (next_month_end (sd.getD today))
          (saldo_1 (quantize amount) n tc tp (sd.getD today)) := rfl


/-! ## Claim C1: internal consistency of the schedule -/

/-- C1: for every valid input (positive principal rounded to the currency
unit, 1-60 periods), the schedule opens at the principal, chains every
opening balance to the previous closing balance, closes the last row at
exactly zero, and its principal portions sum to the principal exactly. -/
theorem simulate_schedule_consistent (amount : ℚ) (n : ℕ) (sd : Option Date)
    (tc tp : Option String) (today : Date)
    (hP : 0 < quantize amount) (hn : 1 ≤ n) (hcap : n ≤ 60) :
    chained (quantize amount) (simulate amount n sd tc tp today).schedule = true ∧
    sumAbono (simulate amount n sd tc tp today).schedule = quantize amount ∧
    lastSaldoFinal (simulate amount n sd tc tp today).schedule = some 0 := by
  have hPi : IsInt (quantize amount) := isInt_quantize amount
  have habInt : IsInt (abono_cap_1 (quantize amount) n tc tp (sd.getD today)) :=
    isInt_abono_cap_1 _ _ _ _ _ hPi
  have hs1 : saldo_1 (quantize amount) n tc tp (sd.getD today)
      = quantize amount - abono_cap_1 (quantize amount) n tc tp (sd.getD today) := by
    unfold saldo_1
    exact (hPi.sub habInt).quantize_eq
  rw [simulate_schedule_eq]
  rcases eq_or_lt_of_le hn with h1 | h2
  · have hn1 : n = 1 := h1.symm
    subst hn1
    have hab : abono_cap_1 (quantize amount) 1 tc tp (sd.getD today) = quantize amount :=
      abono_cap_1_eq_principal _ _ _ _ hP hPi
    have hsal : saldo_1 (quantize amount) 1 tc tp (sd.getD today) = 0 := by
      rw [hs1, hab, sub_self]
    refine ⟨?_, ?_, ?_⟩
    · simp [loopRows, chained, chained_cons, row_1, hsal]
    · simp [loopRows, sumAbono, row_1, hab]
    · simp [loopRows, lastSaldoFinal, row_1, hsal]
  · have hm : 1 ≤ n - 1 := by omega
    obtain ⟨ihc, ihsum, ihlast⟩ := loopRows_consistent
      (payment_monthly (quantize amount) n tc tp)
      (aval_monthly (quantize amount) n tc tp)
      (iva_aval (quantize amount) n tc tp)
      base_rate_monthly n (n - 1) 2 (next_month_end (sd.getD today))
      (saldo_1 (quantize amount) n tc tp (sd.getD today))
      (by omega) hm (isInt_quantize _)
    refine ⟨?_, ?_, ?_⟩
    · rw [chained_cons]
      simp [row_1, ihc]
    · rw [sumAbono_cons]
      simp only [row_1]
      rw [ihsum, hs1]
      ring
    · have hne : loopRows (payment_monthly (quantize amount) n tc tp)
          (aval_monthly (quantize amount) n tc tp)
          (iva_aval (quantize amount) n tc tp)
          base_rate_monthly n 2 (n - 1) (next_month_end (sd.getD today))
          (saldo_1 (quantize amount) n tc tp (sd.getD today)) ≠ [] := by
        intro h
        rw [h] at ihlast
        exact absurd ihlast (by simp [lastSaldoFinal])
      rw [lastSaldoFinal_cons _ hne]
      exact ihlast


/-! ## Helper lemmas for rate selection and row access -/

lemma seleccionar_none (monto : ℚ) (tp : Option String) :
    seleccionar_tasa_aval monto none tp
      = if monto > 5000000 then rate_aval_individualorcompany else rate_aval_payroll := by
  unfold seleccionar_tasa_aval
  rw [if_neg (by decide)]

lemma AllRows.imp {p q : ScheduleRow → Prop} (h : ∀ r, p r → q r) :
    ∀ {rows : List ScheduleRow}, AllRows p rows → AllRows q rows := by
  intro rows
  induction rows with
  | nil => intro _; exact trivial
  | cons r rs ih => intro hpr; exact ⟨h r hpr.1, ih hpr.2⟩

lemma rowAt_cons_zero (r : ScheduleRow) (rows : List ScheduleRow) :
    rowAt (r :: rows) 0 = r := by
  simp [rowAt]

lemma rowAt_cons_succ (r : ScheduleRow) (rows : List ScheduleRow) (i : ℕ) :
    rowAt (r :: rows) (i + 1) = rowAt rows i := by
  simp [rowAt]

lemma rowAt_simulate_zero (amount : ℚ) (n : ℕ) (sd : Option Date)
    (tc tp : Option String) (today : Date) :
    rowAt (simulate amount n sd tc tp today).schedule 0
      = row_1 (quantize amount) n tc tp (sd.getD today) := by
  rw [simulate_schedule_eq, rowAt_cons_zero]

/-- C2: the payment formula returns `round(P / n)` when the rate is zero and
`round(P * i / (1 - (1+i)^(-n)))` when it is positive; in particular
`pmt(1200000, 0, 12) = 100000`. -/
theorem pmt_spec (P i : ℚ) (n : ℕ) (hP : 0 < P) (hi : 0 ≤ i) (hn : 0 < n) :
    (i = 0 → pmt P i n = quantize (P / (n : ℚ))) ∧
    (0 < i → pmt P i n = quantize (P * i / (1 - (1 + i) ^ (-(n : ℤ))))) ∧
    pmt 1200000 0 12 = 100000 := by
  refine ⟨fun h => ?_, fun h => ?_, ?_⟩
  · unfold pmt
    rw [if_pos h]
  · unfold pmt
    rw [if_neg (ne_of_gt h)]
  · norm_num [pmt, quantize, qround]

theorem pmt_spec_witness :
    (0 : ℚ) < 1200000 ∧ (0 : ℚ) ≤ 0 ∧ 0 < 12 ∧
    (((0 : ℚ) = 0 → pmt 1200000 0 12 = quantize ((1200000 : ℚ) / ((12 : ℕ) : ℚ))) ∧
     ((0 : ℚ) < 0 → pmt 1200000 0 12
        = quantize ((1200000 : ℚ) * 0 / (1 - (1 + 0) ^ (-((12 : ℕ) : ℤ))))) ∧
     pmt 1200000 0 12 = 100000) :=
  ⟨by norm_num, le_refl 0, by norm_num,
    pmt_spec 1200000 0 12 (by norm_num) (le_refl 0) (by norm_num)⟩

/-- C9: with an explicit start date, `simulate` is a pure function of its
inputs - the ambient clock (`today`) does not influence the result. -/
theorem simulate_deterministic (amount : ℚ) (n : ℕ) (d : Date) (tc tp : Option String)
    (today1 today2 : Date) :
    simulate amount n (some d) tc tp today1 = simulate amount n (some d) tc tp today2 := rfl

/-- C10: for a principal that is a whole number of currency units, the flat
monthly payment computed inside `simulate` coincides with the standalone
quote function `calcular_cuota_mensual` on the same arguments. -/
theorem simulate_payment_matches_cuota (amount : ℚ) (n : ℕ) (sd : Option Date)
    (tc tp : Option String) (today : Date) (hq : quantize amount = amount) :
    (simulate amount n sd tc tp today).payment_monthly
      = calcular_cuota_mensual amount n tc tp := by
  show payment_monthly (quantize amount) n tc tp = _
  rw [hq]
  rfl

theorem simulate_payment_matches_cuota_witness :
    quantize (1000000 : ℚ) = 1000000 ∧
    (simulate 1000000 12 none none none ⟨2024, 5, 1⟩).payment_monthly
      = calcular_cuota_mensual 1000000 12 none none :=
  ⟨by norm_num [quantize, qround],
    simulate_payment_matches_cuota 1000000 12 none none none ⟨2024, 5, 1⟩
      (by norm_num [quantize, qround])⟩

/-- C3: the contractual monthly payment - both in the standalone quote and
inside `simulate` - is the five-step composition with intermediate rounding:
base payment, with-guarantee payment, rounded fee difference, rounded tax on
the fee, and the rounded sum. -/
theorem calcular_cuota_mensual_spec (monto amount : ℚ) (plazo n : ℕ)
    (tc tp : Option String) (sd : Option Date) (today : Date) :
    calcular_cuota_mensual monto plazo tc tp
      = quantize (pmt monto base_rate_monthly plazo
          + quantize (pmt monto (seleccionar_tasa_aval monto tc tp) plazo
              - pmt monto base_rate_monthly plazo)
          + quantize (quantize (pmt monto (seleccionar_tasa_aval monto tc tp) plazo
              - pmt monto base_rate_monthly plazo) * iva_rate)) ∧
    (simulate amount n sd tc tp today).payment_monthly
      = quantize (pmt (quantize amount) base_rate_monthly n
          + quantize (pmt (quantize amount) (seleccionar_tasa_aval (quantize amount) tc tp) n
              - pmt (quantize amount) base_rate_monthly n)
          + quantize (quantize (pmt (quantize amount) (seleccionar_tasa_aval (quantize amount) tc tp) n
              - pmt (quantize amount) base_rate_monthly n) * iva_rate)) :=
  ⟨rfl, rfl⟩

/-- C6: rate selection returns the payroll rate whenever the trimmed,
lowercased product tag is "libranza" (regardless of principal); otherwise
the individual/company rate above 5,000,000 and the payroll rate at or
below; absent or empty tags count as not payroll-deduction. -/
theorem seleccionar_tasa_aval_spec (monto m2 : ℚ) (s : String) (tp tp2 tp3 tp4 : Option String) :
    (seleccionar_tasa_aval monto (some s) tp
        = if pyLower (pyStrip s) = "libranza" then rate_aval_payroll
          else if monto > 5000000 then rate_aval_individualorcompany else rate_aval_payroll) ∧
    (seleccionar_tasa_aval monto none tp2
        = if monto > 5000000 then rate_aval_individualorcompany else rate_aval_payroll) ∧
    (seleccionar_tasa_aval monto (some "") tp3
        = if monto > 5000000 then rate_aval_individualorcompany else rate_aval_payroll) ∧
    seleccionar_tasa_aval 6000000 (some "particular") tp4 = rate_aval_individualorcompany ∧
    seleccionar_tasa_aval 4000000 (some "particular") tp4 = rate_aval_payroll ∧
    seleccionar_tasa_aval m2 (some "Libranza") tp4 = rate_aval_payroll := by
  refine ⟨rfl, seleccionar_none monto tp2, ?_, ?_, ?_, ?_⟩
  · unfold seleccionar_tasa_aval
    rw [if_neg (by decide)]
  · unfold seleccionar_tasa_aval
    rw [if_neg (by decide), if_pos (by norm_num)]
  · unfold seleccionar_tasa_aval
    rw [if_neg (by decide), if_neg (by norm_num)]
  · unfold seleccionar_tasa_aval
    rw [if_pos (by decide)]

lemma next_month_end_eq (d : Date) : next_month_end d = month_end (nextDay (month_end d)) := by
  unfold next_month_end month_end nextDay
  by_cases h : d.month = 12
  · simp [h, lt_irrefl]
  · simp [h, lt_irrefl]

/-- C7: the first period always ends at the month-end of the month following
the start date's own month-end; starting 2024-01-15 it ends 2024-02-29
(leap year), and starting 2023-12-31 it ends in January 2024 (rollover). -/
theorem simulate_first_period_end_date :
    (∀ (amount : ℚ) (n : ℕ) (sd : Option Date) (tc tp : Option String) (today : Date),
      (rowAt (simulate amount n sd tc tp today).schedule 0).fecha_final
        = month_end (nextDay (month_end (sd.getD today)))) ∧
    (rowAt (simulate 5000000 12 (some ⟨2024, 1, 15⟩) none none ⟨2024, 1, 15⟩).schedule 0).fecha_final
        = ⟨2024, 2, 29⟩ ∧
    (rowAt (simulate 5000000 12 (some ⟨2023, 12, 31⟩) none none ⟨2023, 12, 31⟩).schedule 0).fecha_final.month
        = 1 ∧
    (rowAt (simulate 5000000 12 (some ⟨2023, 12, 31⟩) none none ⟨2023, 12, 31⟩).schedule 0).fecha_final.year
        = 2024 := by
  have hgen : ∀ (amount : ℚ) (n : ℕ) (sd : Option Date) (tc tp : Option String) (today : Date),
      (rowAt (simulate amount n sd tc tp today).schedule 0).fecha_final
        = month_end (nextDay (month_end (sd.getD today))) := by
    intro amount n sd tc tp today
    rw [rowAt_simulate_zero]
    show next_month_end (sd.getD today) = _
    exact next_month_end_eq _
  refine ⟨hgen, ?_, ?_, ?_⟩
  · rw [rowAt_simulate_zero]
    show next_month_end ⟨2024, 1, 15⟩ = _
    decide
  · rw [rowAt_simulate_zero]
    show (next_month_end ⟨2023, 12, 31⟩).month = 1
    decide
  · rw [rowAt_simulate_zero]
    show (next_month_end ⟨2023, 12, 31⟩).year = 2024
    decide


/-- C4: for every regular period (rows 2..n), the interest is
`round(balance * base_rate * days_k / 30)`, the principal portion is
`round(payment_monthly - aval - iva - interest_k)` floored at 0 except that
the final period's portion is forced to the whole remaining balance, the
closing balance is `round(balance - principal_portion)`, and the charged
payment is `round(principal_portion + interest + aval + iva)`. -/
theorem simulate_regular_rows_spec (amount : ℚ) (n : ℕ) (sd : Option Date)
    (tc tp : Option String) (today : Date) :
    AllRows (fun r =>
      r.intereses = quantize (r.saldo_inicial * base_rate_monthly * (r.dias : ℚ) / 30) ∧
      (r.cuota_no = n → r.abono_capital = r.saldo_inicial) ∧
      (r.cuota_no ≠ n → r.abono_capital =
        (if quantize ((simulate amount n sd tc tp today).payment_monthly
              - r.aval - r.iva_aval - r.intereses) < 0 then 0
         else quantize ((simulate amount n sd tc tp today).payment_monthly
              - r.aval - r.iva_aval - r.intereses))) ∧
      r.saldo_final = quantize (r.saldo_inicial - r.abono_capital) ∧
      r.valor_cuota_mensual = quantize (r.abono_capital + r.intereses + r.aval + r.iva_aval))
    (simulate amount n sd tc tp today).schedule.tail := by
  have htail : (simulate amount n sd tc tp today).schedule.tail
      = loopRows (payment_monthly (quantize amount) n tc tp)
          (aval_monthly (quantize amount) n tc tp)
          (iva_aval (quantize amount) n tc tp)
          base_rate_monthly n 2 (n - 1) (next_month_end (sd.getD today))
          (saldo_1 (quantize amount) n tc tp (sd.getD today)) := rfl
  have hpm : (simulate amount n sd tc tp today).payment_monthly
      = payment_monthly (quantize amount) n tc tp := rfl
  rw [htail, hpm]
  refine AllRows.imp ?_ (loopRows_rows_spec _ _ _ _ n (n - 1) 2 _ _)
  intro r hr
  obtain ⟨ha, hi, _hf, _hd, hint, hlastp, hreg, hsf, hv⟩ := hr
  refine ⟨hint, hlastp, ?_, hsf, hv⟩
  intro hne
  rw [ha, hi]
  exact hreg hne

/-- C8 (amended): every regular row's reported day count is the
exclusive-start, inclusive-end difference `(end - start).days` between its
period start and end dates, and that same day count is used in the interest
computation `round(balance * base_rate * days_k / 30)`. -/
theorem simulate_day_count_amended (amount : ℚ) (n : ℕ) (sd : Option Date)
    (tc tp : Option String) (today : Date) :
    AllRows (fun r =>
      r.dias = diff_days_exclusive r.fecha_inicial r.fecha_final ∧
      r.intereses = quantize (r.saldo_inicial * base_rate_monthly * (r.dias : ℚ) / 30))
    (simulate amount n sd tc tp today).schedule.tail := by
  have htail : (simulate amount n sd tc tp today).schedule.tail
      = loopRows (payment_monthly (quantize amount) n tc tp)
          (aval_monthly (quantize amount) n tc tp)
          (iva_aval (quantize amount) n tc tp)
          base_rate_monthly n 2 (n - 1) (next_month_end (sd.getD today))
          (saldo_1 (quantize amount) n tc tp (sd.getD today)) := rfl
  rw [htail]
  refine AllRows.imp ?_ (loopRows_rows_spec _ _ _ _ n (n - 1) 2 _ _)
  intro r hr
  exact ⟨hr.2.2.2.1, hr.2.2.2.2.1⟩

lemma loopRows_head_intereses (pm aval iva i0 : ℚ) (n k m : ℕ) (prev : Date) (saldo : ℚ) :
    (rowAt (loopRows pm aval iva i0 n k (m + 1) prev saldo) 0).intereses
      = interesK i0 prev saldo := by
  rw [loopRows, rowAt_cons_zero]

lemma loopRows_head_saldo_inicial (pm aval iva i0 : ℚ) (n k m : ℕ) (prev : Date) (saldo : ℚ) :
    (rowAt (loopRows pm aval iva i0 n k (m + 1) prev saldo) 0).saldo_inicial = saldo := by
  rw [loopRows, rowAt_cons_zero]


lemma quantize_million : quantize (1000000 : ℚ) = 1000000 := by norm_num [quantize, qround]

lemma sel_million : seleccionar_tasa_aval 1000000 none none = 705 / 10000 := by
  rw [seleccionar_none]
  norm_num [rate_aval_payroll]

section Cex
-- Concrete run: amount 1000000, n = 3, start 2022-12-15.

lemma cex_pay_base : pay_base 1000000 3 = 345607 := by
  norm_num [pay_base, pmt, base_rate_monthly, quantize, qround]

lemma cex_pay_aval : pay_with_aval 1000000 3 none none = 381400 := by
  unfold pay_with_aval
  rw [sel_million]
  norm_num [pmt, quantize, qround]

lemma cex_aval : aval_monthly 1000000 3 none none = 35793 := by
  unfold aval_monthly
  rw [cex_pay_aval, cex_pay_base]
  norm_num [quantize, qround]

lemma cex_iva : iva_aval 1000000 3 none none = 6801 := by
  unfold iva_aval
  rw [cex_aval]
  norm_num [iva_rate, quantize, qround]

lemma cex_pm : payment_monthly 1000000 3 none none = 388201 := by
  unfold payment_monthly
  rw [cex_pay_base, cex_aval, cex_iva]
  norm_num [quantize, qround]

lemma cex_dias0 : diff_days_exclusive ⟨2022, 12, 15⟩ (month_end ⟨2022, 12, 15⟩) = 16 := by
  decide

lemma cex_stub : interes_primera 1000000 ⟨2022, 12, 15⟩ = 9760 := by
  unfold interes_primera
  rw [cex_dias0]
  norm_num [base_rate_monthly, quantize, qround]

lemma cex_i30 : interes_30 (1000000 : ℚ) = 18300 := by
  norm_num [interes_30, base_rate_monthly, quantize, qround]

lemma cex_tramo : interes_tramo_restante 1000000 ⟨2022, 12, 15⟩ = 8540 := by
  unfold interes_tramo_restante
  rw [cex_i30, cex_stub]
  norm_num [quantize, qround]

lemma cex_raw : abono_raw_1 1000000 3 none none ⟨2022, 12, 15⟩ = 327307 := by
  unfold abono_raw_1
  rw [cex_pm, cex_tramo, cex_aval, cex_iva, cex_stub]
  norm_num [quantize, qround]

lemma cex_abono : abono_cap_1 1000000 3 none none ⟨2022, 12, 15⟩ = 327307 := by
  unfold abono_cap_1 abono_floored_1
  rw [cex_raw]
  norm_num

lemma cex_saldo1 : saldo_1 1000000 3 none none ⟨2022, 12, 15⟩ = 672693 := by
  unfold saldo_1
  rw [cex_abono]
  norm_num [quantize, qround]

lemma cex_dias2 : diff_days_exclusive (nextDay (next_month_end ⟨2022, 12, 15⟩))
    (month_end (nextDay (next_month_end ⟨2022, 12, 15⟩))) = 27 := by
  decide

lemma cex_interes2 : interesK base_rate_monthly (next_month_end ⟨2022, 12, 15⟩) 672693 = 11079 := by
  unfold interesK
  rw [cex_dias2]
  norm_num [base_rate_monthly, quantize, qround]

lemma cex_full30 : quantize ((672693 : ℚ) * base_rate_monthly * 30 / 30) = 12310 := by
  norm_num [base_rate_monthly, quantize, qround]

end Cex

/-- C8 counterexample: in the run (1000000, 3 periods, start 2022-12-15)
the second row (February 2023) reports 27 days, not the 28 days of an
inclusive both-endpoints span, and its interest is not the full-30-day-month
figure - the day count does enter the interest computation. -/
theorem dias_not_inclusive_span_counterexample :
    (rowAt (simulate 1000000 3 (some ⟨2022, 12, 15⟩) none none ⟨2022, 12, 15⟩).schedule 1).dias
        ≠ diff_days_exclusive
            (rowAt (simulate 1000000 3 (some ⟨2022, 12, 15⟩) none none ⟨2022, 12, 15⟩).schedule 1).fecha_inicial
            (rowAt (simulate 1000000 3 (some ⟨2022, 12, 15⟩) none none ⟨2022, 12, 15⟩).schedule 1).fecha_final
          + 1 ∧
    (rowAt (simulate 1000000 3 (some ⟨2022, 12, 15⟩) none none ⟨2022, 12, 15⟩).schedule 1).intereses
        ≠ quantize ((rowAt (simulate 1000000 3 (some ⟨2022, 12, 15⟩) none none ⟨2022, 12, 15⟩).schedule 1).saldo_inicial
            * base_rate_monthly * 30 / 30) := by
  constructor
  · decide
  · rw [simulate_schedule_eq, quantize_million, Option.getD_some, rowAt_cons_succ,
      show (3 : ℕ) - 1 = 1 + 1 from rfl, cex_saldo1,
      loopRows_head_intereses, loopRows_head_saldo_inicial, cex_interes2, cex_full30]
    norm_num


/-- The clamp to `[0, P]` applied to the first row's principal portion. -/
def clampPrincipal (P raw : ℚ) : ℚ :=
  if (if raw < 0 then 0 else raw) > P then P else (if raw < 0 then 0 else raw)

section Divergence
-- Concrete run: amount 1000000, n = 2, start 2024-01-15.

lemma div_pay_base : pay_base 1000000 2 = 513766 := by
  norm_num [pay_base, pmt, base_rate_monthly, quantize, qround]

lemma div_pay_aval : pay_with_aval 1000000 2 none none = 553475 := by
  unfold pay_with_aval
  rw [sel_million]
  norm_num [pmt, quantize, qround]

lemma div_aval : aval_monthly 1000000 2 none none = 39709 := by
  unfold aval_monthly
  rw [div_pay_aval, div_pay_base]
  norm_num [quantize, qround]

lemma div_iva : iva_aval 1000000 2 none none = 7545 := by
  unfold iva_aval
  rw [div_aval]
  norm_num [iva_rate, quantize, qround]

lemma div_pm : payment_monthly 1000000 2 none none = 561020 := by
  unfold payment_monthly
  rw [div_pay_base, div_aval, div_iva]
  norm_num [quantize, qround]

lemma div_dias0 : diff_days_exclusive ⟨2024, 1, 15⟩ (month_end ⟨2024, 1, 15⟩) = 16 := by
  decide

lemma div_stub : interes_primera 1000000 ⟨2024, 1, 15⟩ = 9760 := by
  unfold interes_primera
  rw [div_dias0]
  norm_num [base_rate_monthly, quantize, qround]

lemma div_tramo : interes_tramo_restante 1000000 ⟨2024, 1, 15⟩ = 8540 := by
  unfold interes_tramo_restante
  rw [cex_i30, div_stub]
  norm_num [quantize, qround]

lemma div_raw : abono_raw_1 1000000 2 none none ⟨2024, 1, 15⟩ = 495466 := by
  unfold abono_raw_1
  rw [div_pm, div_tramo, div_aval, div_iva, div_stub]
  norm_num [quantize, qround]

lemma div_abono : abono_cap_1 1000000 2 none none ⟨2024, 1, 15⟩ = 495466 := by
  unfold abono_cap_1 abono_floored_1
  rw [div_raw]
  norm_num

lemma div_valor : valor_cuota_1 1000000 2 none none ⟨2024, 1, 15⟩ = 552480 := by
  unfold valor_cuota_1
  rw [div_abono, div_aval, div_iva, div_stub]
  norm_num [quantize, qround]

end Divergence

/-- C5: in row 1, the stub interest is
`round(P * base_rate * stub_days / 30)` with `stub_days` counted from the
start date to its own month end; the principal portion is
`round((payment_monthly - shortfall) - aval - iva - stub)` clamped to
`[0, P]` with `shortfall = round(round(P * base_rate) - stub)`; the charged
payment is `round(principal + aval + iva + stub)`, and it can differ from
the flat contractual payment (1000000 over 2 periods from 2024-01-15
charges 552480 in row 1 against a contractual 561020). -/
theorem simulate_first_row_spec :
    (∀ (amount : ℚ) (n : ℕ) (sd : Option Date) (tc tp : Option String) (today : Date),
      (rowAt (simulate amount n sd tc tp today).schedule 0).interes_primera_cuota
          = quantize (quantize amount * base_rate_monthly
              * ((diff_days_exclusive (sd.getD today) (month_end (sd.getD today))) : ℚ) / 30) ∧
      (rowAt (simulate amount n sd tc tp today).schedule 0).abono_capital
          = clampPrincipal (quantize amount)
              (quantize ((simulate amount n sd tc tp today).payment_monthly
                - quantize (quantize (quantize amount * base_rate_monthly)
                    - (rowAt (simulate amount n sd tc tp today).schedule 0).interes_primera_cuota)
                - (rowAt (simulate amount n sd tc tp today).schedule 0).aval
                - (rowAt (simulate amount n sd tc tp today).schedule 0).iva_aval
                - (rowAt (simulate amount n sd tc tp today).schedule 0).interes_primera_cuota)) ∧
      (rowAt (simulate amount n sd tc tp today).schedule 0).valor_cuota_mensual
          = quantize ((rowAt (simulate amount n sd tc tp today).schedule 0).abono_capital
              + (rowAt (simulate amount n sd tc tp today).schedule 0).aval
              + (rowAt (simulate amount n sd tc tp today).schedule 0).iva_aval
              + (rowAt (simulate amount n sd tc tp today).schedule 0).interes_primera_cuota)) ∧
    (rowAt (simulate 1000000 2 (some ⟨2024, 1, 15⟩) none none ⟨2024, 1, 15⟩).schedule 0).valor_cuota_mensual
        ≠ (simulate 1000000 2 (some ⟨2024, 1, 15⟩) none none ⟨2024, 1, 15⟩).payment_monthly := by
  constructor
  · intro amount n sd tc tp today
    rw [rowAt_simulate_zero]
    refine ⟨rfl, ?_, rfl⟩
    have key : interes_tramo_restante (quantize amount) (sd.getD today)
        = quantize (quantize (quantize amount * base_rate_monthly)
            - interes_primera (quantize amount) (sd.getD today)) := by
      unfold interes_tramo_restante
      rw [interes_30_eq]
    show abono_cap_1 (quantize amount) n tc tp (sd.getD today) = _
    unfold abono_cap_1 abono_floored_1 abono_raw_1
    rw [key]
    rfl
  · rw [rowAt_simulate_zero, Option.getD_some, quantize_million]
    show valor_cuota_1 1000000 2 none none ⟨2024, 1, 15⟩
        ≠ payment_monthly (quantize 1000000) 2 none none
    rw [quantize_million, div_valor, div_pm]
    norm_num

/-- Witness for C1 at the concrete input (1000000, 3, 2024-01-15). -/
theorem simulate_schedule_consistent_witness :
    0 < quantize (1000000 : ℚ) ∧ 1 ≤ 3 ∧ 3 ≤ 60 ∧
    (chained (quantize 1000000)
        (simulate 1000000 3 (some ⟨2024, 1, 15⟩) none none ⟨2024, 1, 15⟩).schedule = true ∧
     sumAbono (simulate 1000000 3 (some ⟨2024, 1, 15⟩) none none ⟨2024, 1, 15⟩).schedule
        = quantize 1000000 ∧
     lastSaldoFinal (simulate 1000000 3 (some ⟨2024, 1, 15⟩) none none ⟨2024, 1, 15⟩).schedule
        = some 0) :=
  ⟨by norm_num [quantize, qround], by norm_num, by norm_num,
    simulate_schedule_consistent 1000000 3 (some ⟨2024, 1, 15⟩) none none ⟨2024, 1, 15⟩
      (by norm_num [quantize, qround]) (by norm_num) (by norm_num)⟩

end Libramoneda
